import Mathlib

/-!
Shallow embedding of the memory-object subsystem of the NeuralNetworks
runtime (`src/runtime/Memory.cpp`): the three memory validators, the copy
engine, and the memory descriptor builder (`addRole` / `finish` /
`allocate`), together with theorems settling the frozen claims about them.

External collaborators that are not part of `src/` (the dimension combiner
from `Utils.cpp`, `TypeManager`, the compilation pipeline's step-role
enumeration, and the validator base-class defaults from `Memory.h`) are
modelled from the specification; each such definition carries a doc comment
saying so.
-/

namespace NNMemory

/-- The closed result-code enumeration used by this subsystem
(`ANEURALNETWORKS_*` codes that appear in `Memory.cpp`). -/
inductive ResultCode where
  | NO_ERROR
  | OUT_OF_MEMORY
  | UNEXPECTED_NULL
  | BAD_DATA
  | OP_FAILED
  | BAD_STATE
  | UNMAPPABLE
deriving DecidableEq, Repr

/-- Input/output kind of a role (`IOType` in the source). -/
inductive IOType where
  | INPUT
  | OUTPUT
deriving DecidableEq, Repr

/-- Modelled from the spec: an operand data-type signature. `TypeManager`
(`isTensorType`, element sizes) is not under `src/`, so tensor-ness and the
element byte size are carried as fields of the type code. -/
structure DataType where
  code : Nat
  isTensor : Bool
  elementSize : Nat
deriving DecidableEq, Repr

/-- The fields of an `Operand` that `Memory.cpp` reads: data type, scale,
zero point, extra params, and dimensions. `scale` is a `float` compared
only for equality in the source, so it is modelled by an integer id. -/
structure Operand where
  type : DataType
  scale : Int
  zeroPoint : Int
  extraParams : Nat
  dimensions : List Nat
deriving DecidableEq, Repr

/-- Modelled from the spec: element-wise combination of one axis.  An
unknown axis (value 0) yields the other axis; two known axes must match. -/
def combineDim (l r : Nat) : Option Nat :=
  if l = 0 then some r
  else if r = 0 then some l
  else if l = r then some l
  else none

/-- Modelled from the spec: element-wise combination of two equal-rank
shape vectors; fails when the ranks differ. -/
def combineDimsList : List Nat → List Nat → Option (List Nat)
  | [], [] => some []
  | l :: ls, r :: rs => do
      let d ← combineDim l r
      let ds ← combineDimsList ls rs
      pure (d :: ds)
  | _, _ => none

/-- Modelled from the spec: the Dimension Combiner (`combineDimensions` of
`Utils.cpp`, not under `src/`).  An empty (unknown-rank) vector combines to
exactly the other vector; otherwise the ranks must agree and the axes are
combined element-wise. -/
def combineDimensions (lhs rhs : List Nat) : Option (List Nat) :=
  if lhs = [] then some rhs
  else if rhs = [] then some lhs
  else combineDimsList lhs rhs

/-- Modelled from the spec: `TypeManager::get()->getSizeOfData(type, dims)`
(not under `src/`).  A tensor of unknown rank or with an unknown axis has
size 0; otherwise the size is the element size times the axis product; a
scalar has its element size. -/
def getSizeOfData (t : DataType) (dims : List Nat) : Nat :=
  if t.isTensor then (if dims = [] then 0 else t.elementSize * dims.prod)
  else t.elementSize

/-- `MemoryValidatorBase::Metadata`: the source's logical size, resolved
dimensions and operand read by the copy engine. -/
structure Metadata where
  logicalSize : Nat := 0
  dimensions : List Nat := []
  operand : Option Operand := none
deriving DecidableEq, Repr

/-- `CompilationRole`: (compilation identity, io kind, slot index).  The
source compares compilations by address; the address is modelled by an
identity number. -/
abbrev CompilationRole := Nat × IOType × Nat

/-- The three validator variants of `Memory.cpp`.  The `initialized` flag on
the `sized` and `nonBlob` variants is modelled from the spec (the base-class
default of `Memory.h` is not under `src/`; the spec describes a two-state
machine toggled only by `setInitialized`).  The `device` variant stores
exactly the fields of `DeviceMemoryValidator`. -/
inductive Validator where
  | sized (size : Nat) (initialized : Bool)
  | nonBlob (initialized : Bool)
  | device (roles : List CompilationRole) (operand : Operand)
      (initialDims : List Nat) (updatedDims : List Nat) (initialized : Bool)
deriving DecidableEq, Repr

/-- 2^32, the modulus of the `uint32_t` arithmetic in the source. -/
def UINT32_MOD : Nat := 2 ^ 32

/-- `SizedMemoryValidator::validate`: the source checks
`offset + length <= kSize` in `uint32_t` arithmetic (hence the wrap-around
modulus) and rejects `offset == 0 && length == 0`.  The compilation, io
type, index and operand-type parameters are ignored by this variant. -/
def SizedMemoryValidator.validate (size offset length : Nat) : Bool :=
  decide ((offset + length) % UINT32_MOD ≤ size) &&
  decide (offset ≠ 0 ∨ length ≠ 0)

/-- `isInitialized` of each validator variant. -/
def Validator.isInitialized : Validator → Bool
  | .sized _ b => b
  | .nonBlob b => b
  | .device _ _ _ _ b => b

/-- `setInitialized` of each validator variant. -/
def Validator.setInitialized : Validator → Bool → Validator
  | .sized s _, b => .sized s b
  | .nonBlob _, b => .nonBlob b
  | .device r o i u _, b => .device r o i u b

/-- `getMetadata` of each validator variant. -/
def Validator.getMetadata : Validator → Metadata
  | .sized size _ => { logicalSize := size }
  | .nonBlob _ => {}
  | .device _ op _ updDims _ =>
      { logicalSize := getSizeOfData op.type updDims,
        dimensions := updDims,
        operand := some op }

/-- The operand-compatibility test of `DeviceMemoryValidator::updateMetadata`:
absent metadata operand is accepted; a present one must agree in type,
scale, zero point and extra params. -/
def operandCompatible (dstOp : Operand) (m : Metadata) : Bool :=
  match m.operand with
  | none => true
  | some o => decide (o.type = dstOp.type ∧ o.scale = dstOp.scale ∧
      o.zeroPoint = dstOp.zeroPoint ∧ o.extraParams = dstOp.extraParams)

/-- `updateMetadata` of each validator variant, returning the success flag
and the (possibly mutated) validator.  The `sized` variant accepts exactly a
zero logical size or its own size; the `nonBlob` variant accepts anything;
the `device` variant checks the operand fields, combines the incoming
dimensions with its initial dimensions, checks the logical size against the
combined dimensions, and on success stores the combined dimensions. -/
def Validator.updateMetadata : Validator → Metadata → Bool × Validator
  | v@(.sized size _), m =>
      (decide (m.logicalSize = 0 ∨ m.logicalSize = size), v)
  | v@(.nonBlob _), _ => (true, v)
  | v@(.device roles op initDims _ ini), m =>
      if !operandCompatible op m then (false, v)
      else if !(decide (m.dimensions = []) || op.type.isTensor) then (false, v)
      else
        match combineDimensions m.dimensions initDims with
        | none => (false, v)
        | some combined =>
            if !decide (m.logicalSize = 0 ∨
                m.logicalSize = getSizeOfData op.type combined) then (false, v)
            else (true, .device roles op initDims combined ini)

/-- `validateInputDimensions`: overridden only by the device variant
(initialized and exactly equal to the updated dimensions); the base-class
default (not under `src/`, modelled from the spec's "Device-role only")
accepts. -/
def Validator.validateInputDimensions : Validator → List Nat → Bool
  | .device _ _ _ updDims ini, dims => ini && decide (dims = updDims)
  | _, _ => true

/-- A `Memory` object: identity (the object's address, used only as an
opaque key), its backing (`kHidlMemory.valid()` with its byte size, and/or a
driver `IBuffer`), and its validator. -/
structure Memory where
  id : Nat
  hasHidl : Bool
  hidlSize : Nat
  hasIBuffer : Bool
  validator : Validator
deriving DecidableEq, Repr

/-- Outcomes of the external calls the copy engine makes (driver transfers,
shared-memory allocation, host mapping).  These are out-of-process effects;
each field is the result code the corresponding call would return. -/
structure CopyEnv where
  allocOk : Bool
  ibufToHidl : ResultCode
  hidlToIbuf : ResultCode
  mapOk : Bool
deriving DecidableEq, Repr

/-- `copyIBuffers`: round-trip through a freshly allocated shared segment
(fail with OUT_OF_MEMORY when the allocation is invalid), then the two
driver transfers, propagating the first failure. -/
def copyIBuffers (env : CopyEnv) : ResultCode :=
  if !env.allocOk then .OUT_OF_MEMORY
  else if env.ibufToHidl ≠ .NO_ERROR then env.ibufToHidl
  else if env.hidlToIbuf ≠ .NO_ERROR then env.hidlToIbuf
  else .NO_ERROR

/-- `copyHidlMemories`: requires equal byte sizes (else BAD_DATA), then maps
both pools (else UNMAPPABLE) and copies byte-for-byte. -/
def copyHidlMemories (env : CopyEnv) (srcSize dstSize : Nat) : ResultCode :=
  if srcSize ≠ dstSize then .BAD_DATA
  else if !env.mapOk then .UNMAPPABLE
  else .NO_ERROR

/-- `copyInternal` of `Memory.cpp`: same-object fast path, the
uninitialized-source gate, `updateMetadata` on the destination, then the
dispatch on the backing-kind pair.  Returns the result code and the updated
destination (the source is const in the source code). -/
def copyInternal (env : CopyEnv) (src dst : Memory) : ResultCode × Memory :=
  if src.id = dst.id then (.NO_ERROR, dst)
  else if !src.validator.isInitialized then (.BAD_DATA, dst)
  else
    let srcMetadata := src.validator.getMetadata
    let (ok, v) := dst.validator.updateMetadata srcMetadata
    if !ok then (.BAD_DATA, { dst with validator := v })
    else
      let code :=
        if src.hasIBuffer && dst.hasIBuffer then copyIBuffers env
        else if src.hasHidl && dst.hasHidl then
          copyHidlMemories env src.hidlSize dst.hidlSize
        else if src.hasHidl && dst.hasIBuffer then env.hidlToIbuf
        else if src.hasIBuffer && dst.hasHidl then env.ibufToHidl
        else .OP_FAILED
      (code, { dst with validator := v })

/-- `Memory::copy`: run `copyInternal`, then always invoke
`dst.validator.setInitialized(n == NO_ERROR)` on the destination. -/
def Memory.copy (env : CopyEnv) (src dst : Memory) : ResultCode × Memory :=
  let (n, d) := copyInternal env src dst
  (n, { d with validator := d.validator.setInitialized (decide (n = .NO_ERROR)) })

/-- A prepared-model step; the source compares prepared models and devices
by address, modelled as identity numbers. -/
structure PreparedModel where
  pmId : Nat
  device : Nat
deriving DecidableEq, Repr

/-- One entry produced by the compilation's `forEachStepRoleOf*` callback:
the prepared-model step, its io kind, and its io index. -/
structure StepRole where
  preparedModel : PreparedModel
  ioType : IOType
  ioIndex : Nat
deriving DecidableEq, Repr

/-- The source's `float` frequency: a finite value (carried exactly as a
rational), one of the two infinities, or the IEEE NaN.  Every finite
`float` is exactly a rational, so this models all `float` values that
matter to the ordered comparisons the source performs. -/
inductive Float32 where
  | finite (val : ℚ)
  | posInf
  | negInf
  | nan
deriving DecidableEq, Repr

/-- IEEE-754 ordered less-than on the modelled floats: false whenever
either side is NaN. -/
def Float32.lt : Float32 → Float32 → Bool
  | .nan, _ => false
  | _, .nan => false
  | .negInf, .negInf => false
  | .negInf, _ => true
  | _, .negInf => false
  | .posInf, _ => false
  | .finite _, .posInf => true
  | .finite a, .finite b => decide (a < b)

/-- IEEE-754 ordered less-or-equal on the modelled floats: false whenever
either side is NaN. -/
def Float32.le : Float32 → Float32 → Bool
  | .nan, _ => false
  | _, .nan => false
  | .negInf, _ => true
  | _, .negInf => false
  | _, .posInf => true
  | .posInf, .finite _ => false
  | .finite a, .finite b => decide (a ≤ b)

/-- `BufferRole`: (prepared-model index, io index, frequency). -/
structure BufferRole where
  modelIndex : Nat
  ioIndex : Nat
  frequency : Float32
deriving DecidableEq, Repr

/-- `MemoryDescriptor`: accumulated dimensions, the deduplicating list of
referenced prepared models, and the per-kind buffer-role lists. -/
structure MemoryDescriptor where
  dimensions : List Nat := []
  preparedModels : List PreparedModel := []
  inputRoles : List BufferRole := []
  outputRoles : List BufferRole := []
deriving DecidableEq, Repr

/-- The part of `ModelBuilder` that `addRole` reads: the input and output
operands (index-out-of-range is `get? = none`). -/
structure ModelBuilder where
  inputOperands : List Operand := []
  outputOperands : List Operand := []

/-- Modelled from the spec: the compilation pipeline is out of scope, so a
compilation is its identity, its model, and the `forEachStepRoleOf*`
enumeration of the prepared-model steps each logical role fans out to
(`none` models the enumeration returning an error code). -/
structure CompilationBuilder where
  cbId : Nat
  model : ModelBuilder
  stepRolesOfInput : Nat → Option (List StepRole)
  stepRolesOfOutput : Nat → Option (List StepRole)

/-- `MemoryBuilder`: the role keys registered so far, the recorded operand,
the descriptor, the finished flag, and the selected allocating device. -/
structure MemoryBuilder where
  roles : List CompilationRole := []
  operand : Option Operand := none
  desc : MemoryDescriptor := {}
  finished : Bool := false
  allocator : Option Nat := none
deriving DecidableEq, Repr

/-- `ObjectTracker::add`: return the index of an already-tracked prepared
model, or append it and return the fresh index. -/
def ObjectTracker.add (l : List PreparedModel) (p : PreparedModel) :
    Nat × List PreparedModel :=
  match l.findIdx? (· == p) with
  | some i => (i, l)
  | none => (l.length, l ++ [p])

/-- The success-path loop of `addRole`: one `BufferRole` entry per
fanned-out step, pushed to the input or output list by the step's own io
kind, with the prepared model deduplicated into the tracker. -/
def addStepRoles (freq : Float32) : MemoryDescriptor → List StepRole → MemoryDescriptor
  | desc, [] => desc
  | desc, s :: rest =>
      let (modelIndex, pms) := ObjectTracker.add desc.preparedModels s.preparedModel
      let role : BufferRole := { modelIndex := modelIndex, ioIndex := s.ioIndex, frequency := freq }
      let descNext :=
        match s.ioType with
        | .INPUT => { desc with preparedModels := pms, inputRoles := desc.inputRoles ++ [role] }
        | .OUTPUT => { desc with preparedModels := pms, outputRoles := desc.outputRoles ++ [role] }
      addStepRoles freq descNext rest

/-- The operand-metadata check of `addRole`: no operand recorded yet always
passes; otherwise type, scale, zero point and extra params must agree. -/
def operandMatches : Option Operand → Operand → Bool
  | none, _ => true
  | some m, o => decide (o.type = m.type ∧ o.scale = m.scale ∧
      o.zeroPoint = m.zeroPoint ∧ o.extraParams = m.extraParams)

/-- The `forEachStepRoleOf*` dispatch of `addRole`, by io kind. -/
def stepRolesOf (compilation : CompilationBuilder) (ioType : IOType)
    (index : Nat) : Option (List StepRole) :=
  match ioType with
  | .INPUT => compilation.stepRolesOfInput index
  | .OUTPUT => compilation.stepRolesOfOutput index

/-- The operand lookup of `addRole`: bounds check plus
`getInputOperand` / `getOutputOperand`, by io kind. -/
def operandOf (compilation : CompilationBuilder) (ioType : IOType)
    (index : Nat) : Option Operand :=
  match ioType with
  | .INPUT => compilation.model.inputOperands.get? index
  | .OUTPUT => compilation.model.outputOperands.get? index

/-- `MemoryBuilder::addRole`, following the source's check order: finished
state, duplicate role key, step-role enumeration, operand lookup (index out
of range), operand metadata, scalar-with-dimensions, dimension combination,
frequency bound; then the mutations of the success path.  The frequency is
a `float` in the source, modelled by `Float32`; the bound check
`freq > 1.0f || freq <= 0.0f` uses the IEEE ordered comparisons, which are
both false on NaN. -/
def MemoryBuilder.addRole (b : MemoryBuilder) (compilation : CompilationBuilder)
    (ioType : IOType) (index : Nat) (freq : Float32) : ResultCode × MemoryBuilder :=
  if b.finished then (.BAD_STATE, b)
  else if (compilation.cbId, ioType, index) ∈ b.roles then (.BAD_DATA, b)
  else
    match stepRolesOf compilation ioType index with
    | none => (.BAD_DATA, b)
    | some stepRoles =>
      match operandOf compilation ioType index with
      | none => (.BAD_DATA, b)
      | some operand =>
        if !operandMatches b.operand operand then (.BAD_DATA, b)
        else if !operand.type.isTensor && !decide (b.desc.dimensions = []) then
          (.BAD_DATA, b)
        else
          match combineDimensions b.desc.dimensions operand.dimensions with
          | none => (.BAD_DATA, b)
          | some combined =>
            if Float32.lt (.finite 1) freq || Float32.le freq (.finite 0) then
              (.BAD_DATA, b)
            else
              let descNext := addStepRoles freq b.desc stepRoles
              (.NO_ERROR,
               { b with
                 roles := b.roles ++ [(compilation.cbId, ioType, index)],
                 operand := some operand,
                 desc := { descNext with dimensions := combined } })

/-- The loop of `selectDeviceMemoryAllocator`: first device seeds the
allocator; any later step on a different device returns null at once. -/
def selectAllocatorLoop : Option Nat → List PreparedModel → Option Nat
  | alloc, [] => alloc
  | none, p :: rest => selectAllocatorLoop (some p.device) rest
  | some a, p :: rest =>
      if a = p.device then selectAllocatorLoop (some a) rest else none

/-- `selectDeviceMemoryAllocator`: scan the referenced prepared models; more
than one distinct device yields no allocator.  (With an empty list the
source would fail its `CHECK(allocator != nullptr)`; this model returns
`none`, and `finish` only reaches the scan with a non-empty role set.) -/
def selectDeviceMemoryAllocator (desc : MemoryDescriptor) : Option Nat :=
  selectAllocatorLoop none desc.preparedModels

/-- `MemoryBuilder::finish`: finished-state guard, non-empty role set,
allocator selection, then mark finished. -/
def MemoryBuilder.finish (b : MemoryBuilder) : ResultCode × MemoryBuilder :=
  if b.finished then (.BAD_STATE, b)
  else if b.roles = [] then (.BAD_DATA, b)
  else (.NO_ERROR,
        { b with allocator := selectDeviceMemoryAllocator b.desc, finished := true })

/-- Outcomes of the external allocation calls `allocate` makes: the
selected device's `allocate` and `MemoryAshmem::create`. -/
structure AllocEnv where
  deviceAllocate : Nat → ResultCode
  ashmemCreate : Nat → ResultCode

/-- The observable outcome of `MemoryBuilder::allocate`: the result code,
the validator attached to the returned memory (when one is returned), and
how many times the device allocator and the ashmem fallback were invoked. -/
structure AllocOutcome where
  code : ResultCode
  memory : Option Validator
  deviceCalls : Nat
  fallbackCalls : Nat
deriving DecidableEq, Repr

/-- `MemoryBuilder::allocate`: unfinished-state guard, the computed byte
size (zero fails with OP_FAILED before any allocation), one device attempt
when an allocator was selected, one ashmem fallback when that attempt
failed or was absent, and on success a fresh `DeviceMemoryValidator` seeded
with the roles, the operand and the accumulated dimensions.  (A finished
builder always has an operand — `finish` requires a role and `addRole`
records one; the source `CHECK`s this, and the `none` branch here is
unreachable through the API.) -/
def MemoryBuilder.allocate (b : MemoryBuilder) (env : AllocEnv) : AllocOutcome :=
  if !b.finished then
    { code := .BAD_STATE, memory := none, deviceCalls := 0, fallbackCalls := 0 }
  else
    match b.operand with
    | none =>
        { code := .OP_FAILED, memory := none, deviceCalls := 0, fallbackCalls := 0 }
    | some operand =>
      let size := getSizeOfData operand.type b.desc.dimensions
      if size = 0 then
        { code := .OP_FAILED, memory := none, deviceCalls := 0, fallbackCalls := 0 }
      else
        let firstTry : ResultCode × Nat :=
          match b.allocator with
          | some d => (env.deviceAllocate d, 1)
          | none => (.OP_FAILED, 0)
        let final : ResultCode × Nat :=
          if firstTry.1 ≠ .NO_ERROR then (env.ashmemCreate size, 1) else (firstTry.1, 0)
        { code := final.1,
          memory :=
            if final.1 = .NO_ERROR then
              some (.device b.roles operand b.desc.dimensions b.desc.dimensions false)
            else none,
          deviceCalls := firstTry.2,
          fallbackCalls := final.2 }

/-! Concrete fixtures used by counterexamples and witnesses. -/

/-- A tensor data type of element size 4. -/
def tensorTy : DataType := { code := 3, isTensor := true, elementSize := 4 }

/-- A scalar data type of element size 4. -/
def scalarTy : DataType := { code := 0, isTensor := false, elementSize := 4 }

/-- A fully specified rank-1 tensor operand. -/
def opFix : Operand :=
  { type := tensorTy, scale := 0, zeroPoint := 0, extraParams := 0, dimensions := [1] }

/-- A rank-1 tensor operand with an unknown axis. -/
def opUnknown : Operand :=
  { type := tensorTy, scale := 0, zeroPoint := 0, extraParams := 0, dimensions := [0] }

/-- A copy environment in which every external call succeeds. -/
def envOk : CopyEnv :=
  { allocOk := true, ibufToHidl := .NO_ERROR, hidlToIbuf := .NO_ERROR, mapOk := true }

/-- A driver-backed memory object whose device validator is uninitialized. -/
def memA : Memory :=
  { id := 1, hasHidl := false, hidlSize := 0, hasIBuffer := true,
    validator := .device [] opFix [1] [1] false }

/-- A host-backed memory object with an always-compatible sized validator,
marked initialized. -/
def memB : Memory :=
  { id := 2, hasHidl := true, hidlSize := 4, hasIBuffer := false,
    validator := .sized 4 true }

/-! Theorems settling the claims. -/

/-- C5 (counterexample): the claim "`validate` succeeds iff
`offset + length` is within the bound `S` and not both are zero" is false
at `S = 5`, `offset = 2^32 - 1`, `length = 2`: the `uint32_t` sum wraps to
1, so the source accepts, while the true sum exceeds the bound. -/
theorem C5_sized_validate_cex :
    ¬ (SizedMemoryValidator.validate 5 4294967295 2 = true ↔
        (4294967295 + 2 ≤ 5 ∧ ¬ (4294967295 = 0 ∧ 2 = 0))) := by decide

/-- C5 (amended): for a Sized validator of byte size `S`, `validate`
succeeds iff the wrapped 32-bit sum `(offset + length) mod 2^32` is within
the bound `S` and it is not the case that both offset and length are 0. -/
theorem C5_sized_validate (size offset length : Nat) :
    SizedMemoryValidator.validate size offset length = true ↔
      ((offset + length) % UINT32_MOD ≤ size ∧ ¬ (offset = 0 ∧ length = 0)) := by
  simp [SizedMemoryValidator.validate]
  tauto

/-- C8: the Device-role validator's `validateInputDimensions dims` succeeds
iff the object is initialized and `dims` is exactly the currently resolved
dimensions; it fails whenever the object was never initialized, and
whenever `dims` differs from the resolved dimensions. -/
theorem C8_validateInputDimensions (roles : List CompilationRole) (operand : Operand)
    (initDims updDims dims : List Nat) (ini : Bool) :
    (Validator.device roles operand initDims updDims ini).validateInputDimensions dims
        = true ↔ (ini = true ∧ dims = updDims) := by
  simp [Validator.validateInputDimensions]

/-- C1 (counterexample): `copy(a, a)` on a driver-backed memory whose
device validator is uninitialized returns NO_ERROR but does not leave the
validator state unchanged: `isInitialized` flips from false to true. -/
theorem C1_copy_identity_cex :
    (Memory.copy envOk memA memA).1 = .NO_ERROR ∧
    memA.validator.isInitialized = false ∧
    ((Memory.copy envOk memA memA).2).validator.isInitialized = true := by decide

/-- C1 (amended): `copy(a, a)` always returns NO_ERROR and leaves the
validator unchanged except for the initialized flag, which is always set to
true (so the resolved dimensions are unchanged, but an uninitialized `a`
becomes initialized). -/
theorem C1_copy_identity (env : CopyEnv) (a : Memory) :
    Memory.copy env a a =
      (.NO_ERROR, { a with validator := a.validator.setInitialized true }) := by
  simp [Memory.copy, copyInternal]

/-- C2: for distinct memory objects, `copy(src, dst)` returns BAD_DATA
whenever the source validator reports uninitialized, and whenever copy
returns any failure code the destination validator is left uninitialized,
even if it started initialized. -/
theorem C2_copy_gating (env : CopyEnv) (src dst : Memory) (hne : src.id ≠ dst.id) :
    (src.validator.isInitialized = false →
        (Memory.copy env src dst).1 = .BAD_DATA) ∧
    ((Memory.copy env src dst).1 ≠ .NO_ERROR →
        ((Memory.copy env src dst).2).validator.isInitialized = false) := by
  constructor
  · intro hsrc
    simp [Memory.copy, copyInternal, hne, hsrc]
  · intro hfail
    unfold Memory.copy at hfail ⊢
    generalize hcd : copyInternal env src dst = p at hfail ⊢
    rcases p with ⟨n, d⟩
    simp only at hfail ⊢
    have hd : decide (n = ResultCode.NO_ERROR) = false := by simpa using hfail
    rw [hd]
    cases d.validator <;> simp [Validator.setInitialized, Validator.isInitialized]

/-- C2 (witness): a concrete uninitialized driver-backed source and an
initialized host-backed destination: the copy fails with BAD_DATA and the
destination ends uninitialized. -/
theorem C2_copy_gating_w :
    (Memory.copy envOk memA memB).1 = .BAD_DATA ∧
    ((Memory.copy envOk memA memB).2).validator.isInitialized = false := by
  have h := C2_copy_gating envOk memA memB (by decide)
  exact ⟨h.1 (by decide), h.2 (by decide)⟩

/-- A fresh, default builder. -/
def bFresh : MemoryBuilder := {}

/-- A prepared-model step on device 0. -/
def pmA : PreparedModel := { pmId := 0, device := 0 }

/-- A prepared-model step on device 1. -/
def pmB : PreparedModel := { pmId := 1, device := 1 }

/-- A compilation whose single input role fans out to steps on two distinct
devices, with a fully specified input operand. -/
def compDual : CompilationBuilder :=
  { cbId := 1,
    model := { inputOperands := [opFix] },
    stepRolesOfInput := fun i =>
      if i = 0 then
        some [{ preparedModel := pmA, ioType := .INPUT, ioIndex := 0 },
              { preparedModel := pmB, ioType := .INPUT, ioIndex := 0 }]
      else none,
    stepRolesOfOutput := fun _ => none }

/-- Like `compDual` but the input operand has an unknown axis. -/
def compMulti : CompilationBuilder :=
  { cbId := 1,
    model := { inputOperands := [opUnknown] },
    stepRolesOfInput := fun i =>
      if i = 0 then
        some [{ preparedModel := pmA, ioType := .INPUT, ioIndex := 0 },
              { preparedModel := pmB, ioType := .INPUT, ioIndex := 0 }]
      else none,
    stepRolesOfOutput := fun _ => none }

/-- The unfinished two-device builder with known dimensions. -/
def bDual : MemoryBuilder := ((bFresh.addRole compDual .INPUT 0 (.finite 1)).2)

/-- The unfinished two-device builder with an unknown dimension. -/
def bMulti0 : MemoryBuilder := ((bFresh.addRole compMulti .INPUT 0 (.finite 1)).2)

/-- The finished two-device builder with an unknown dimension. -/
def bMulti : MemoryBuilder := (bMulti0.finish).2

/-- An allocation environment whose device allocator always fails and whose
ashmem fallback always succeeds. -/
def envProbe : AllocEnv :=
  { deviceAllocate := fun _ => .OP_FAILED, ashmemCreate := fun _ => .NO_ERROR }

/-- A compilation used by the duplicate-role fixtures. -/
def compW : CompilationBuilder :=
  { cbId := 7,
    model := { inputOperands := [opFix] },
    stepRolesOfInput := fun i =>
      if i = 0 then some [{ preparedModel := pmA, ioType := .INPUT, ioIndex := 0 }]
      else none,
    stepRolesOfOutput := fun _ => none }

/-- A builder that already holds `compW`'s input role 0, with some
accumulated dimensions. -/
def bDup : MemoryBuilder := { roles := [(7, .INPUT, 0)], desc := { dimensions := [1] } }

/-- C6: on a live (unfinished) builder, registering a role key that is
already registered fails with BAD_DATA and the whole builder — in
particular the accumulated dimensions — is unchanged. -/
theorem C6_duplicate_role (b : MemoryBuilder) (compilation : CompilationBuilder)
    (ioType : IOType) (index : Nat) (freq : Float32)
    (hfin : b.finished = false)
    (hdup : (compilation.cbId, ioType, index) ∈ b.roles) :
    b.addRole compilation ioType index freq = (.BAD_DATA, b) := by
  unfold MemoryBuilder.addRole
  simp [hfin, hdup]

/-- C6 (witness): the concrete duplicate registration is rejected with
BAD_DATA and leaves the builder unchanged. -/
theorem C6_duplicate_role_w : bDup.addRole compW .INPUT 0 (.finite 1) = (.BAD_DATA, bDup) :=
  C6_duplicate_role bDup compW .INPUT 0 (.finite 1) (by decide) (by decide)

/-- C7 (counterexample): the claim "addRole rejects, with BAD_DATA, every
frequency outside (0.0, 1.0]" is false at frequency NaN: NaN is outside the
interval (every IEEE ordered comparison against 0 and 1 is false), yet the
source's check `freq > 1.0f || freq <= 0.0f` is also false on NaN, so the
concrete call succeeds with NO_ERROR. -/
theorem C7_frequency_bound_cex :
    (bFresh.addRole compW .INPUT 0 .nan).1 = .NO_ERROR ∧
    Float32.lt (.finite 0) .nan = false ∧
    Float32.le .nan (.finite 1) = false := by decide

/-- C7 (amended): on a live builder, `addRole` returns BAD_DATA for every
frequency on which the source's check `freq > 1.0f || freq <= 0.0f`
evaluates true — that is, every comparable frequency outside (0, 1], in
particular 0 and 3/2 — and, whenever the remaining preconditions of the
call hold (no duplicate role, step-role enumeration and operand lookup
succeed, operand metadata matches, no scalar-with-dimensions conflict,
dimensions combine), it accepts frequency 1 and also accepts NaN, because
NaN fails both comparisons. -/
theorem C7_frequency_bound (b : MemoryBuilder) (compilation : CompilationBuilder)
    (ioType : IOType) (index : Nat) (freq : Float32) (hfin : b.finished = false) :
    ((Float32.lt (.finite 1) freq || Float32.le freq (.finite 0)) = true →
        (b.addRole compilation ioType index freq).1 = .BAD_DATA) ∧
    (∀ stepRoles operand combined,
        (compilation.cbId, ioType, index) ∉ b.roles →
        stepRolesOf compilation ioType index = some stepRoles →
        operandOf compilation ioType index = some operand →
        operandMatches b.operand operand = true →
        (operand.type.isTensor = true ∨ b.desc.dimensions = []) →
        combineDimensions b.desc.dimensions operand.dimensions = some combined →
        (b.addRole compilation ioType index (.finite 1)).1 = .NO_ERROR ∧
        (b.addRole compilation ioType index .nan).1 = .NO_ERROR) := by
  constructor
  · intro hf
    unfold MemoryBuilder.addRole
    simp only [hfin, Bool.false_eq_true, if_false]
    repeat' split <;> try rfl
  · intro stepRoles operand combined hdup hsteps hop hmatch htensor hcomb
    have hq1 : (Float32.lt (.finite 1) (.finite 1) ||
        Float32.le (.finite 1) (.finite 0)) = false := by decide
    have hqn : (Float32.lt (.finite 1) .nan || Float32.le .nan (.finite 0)) = false := by
      decide
    unfold MemoryBuilder.addRole
    rcases htensor with ht | ht
    · constructor <;> norm_num [hfin, hdup, hsteps, hop, hmatch, hcomb, ht, hq1, hqn]
    · rw [ht] at hcomb
      constructor <;> norm_num [hfin, hdup, hsteps, hop, hmatch, hcomb, ht, hq1, hqn]

/-- C7 (witness): on the concrete fresh builder, frequency 0 and 3/2 are
rejected with BAD_DATA and frequency 1 is accepted. -/
theorem C7_frequency_bound_w :
    (bFresh.addRole compW .INPUT 0 (.finite 0)).1 = .BAD_DATA ∧
    (bFresh.addRole compW .INPUT 0 (.finite (3 / 2))).1 = .BAD_DATA ∧
    (bFresh.addRole compW .INPUT 0 (.finite 1)).1 = .NO_ERROR := by
  refine ⟨(C7_frequency_bound bFresh compW .INPUT 0 (.finite 0) (by decide)).1
            (by norm_num [Float32.lt, Float32.le]),
          (C7_frequency_bound bFresh compW .INPUT 0 (.finite (3 / 2)) (by decide)).1
            (by norm_num [Float32.lt, Float32.le]),
          ((C7_frequency_bound bFresh compW .INPUT 0 (.finite 1) (by decide)).2
            [{ preparedModel := pmA, ioType := .INPUT, ioIndex := 0 }] opFix [1]
            (by decide) (by decide) (by decide) (by decide) (by decide) (by decide)).1⟩

/-- Every failing `addRole` leaves the builder unchanged: the result is
either NO_ERROR or the original builder. -/
theorem addRole_fail_frame (b : MemoryBuilder) (compilation : CompilationBuilder)
    (ioType : IOType) (index : Nat) (freq : Float32) :
    (b.addRole compilation ioType index freq).1 = .NO_ERROR ∨
    (b.addRole compilation ioType index freq).2 = b := by
  unfold MemoryBuilder.addRole
  split
  · exact Or.inr rfl
  · split
    · exact Or.inr rfl
    · split
      · exact Or.inr rfl
      · split
        · exact Or.inr rfl
        · split
          · exact Or.inr rfl
          · split
            · exact Or.inr rfl
            · split
              · exact Or.inr rfl
              · split
                · exact Or.inr rfl
                · exact Or.inl rfl

/-- C10: `addRole` is atomic on failure — whenever it returns any code
other than NO_ERROR, the builder (role set, recorded operand, accumulated
dimensions, and the descriptor's role lists and prepared-model set) is
unchanged. -/
theorem C10_addRole_atomicity (b : MemoryBuilder) (compilation : CompilationBuilder)
    (ioType : IOType) (index : Nat) (freq : Float32)
    (hfail : (b.addRole compilation ioType index freq).1 ≠ .NO_ERROR) :
    (b.addRole compilation ioType index freq).2 = b :=
  (addRole_fail_frame b compilation ioType index freq).resolve_left hfail

/-- C10 (witness): a concrete failing call (frequency 0 on a fresh builder)
leaves the builder unchanged. -/
theorem C10_addRole_atomicity_w : (bFresh.addRole compW .INPUT 0 (.finite 0)).2 = bFresh :=
  C10_addRole_atomicity bFresh compW .INPUT 0 (.finite 0) (by decide)

/-- If the allocator-selection loop, seeded with device `a`, settles on
device `d`, then `a` is `d` and every scanned step runs on `d`. -/
theorem selectAllocatorLoop_some (l : List PreparedModel) :
    ∀ a d, selectAllocatorLoop (some a) l = some d →
      a = d ∧ ∀ p ∈ l, p.device = d := by
  induction l with
  | nil =>
      intro a d h
      simp only [selectAllocatorLoop, Option.some.injEq] at h
      exact ⟨h, by intro p hp; simp at hp⟩
  | cons p rest ih =>
      intro a d h
      rw [selectAllocatorLoop] at h
      split at h
      next hp =>
        obtain ⟨had, hall⟩ := ih a d h
        refine ⟨had, ?_⟩
        intro q hq
        rcases List.mem_cons.mp hq with rfl | hq
        · rw [← hp]; exact had
        · exact hall q hq
      next => exact absurd h (by simp)

/-- If `selectDeviceMemoryAllocator`'s loop settles on device `d`, every
scanned step runs on `d`. -/
theorem selectAllocatorLoop_none (l : List PreparedModel) (d : Nat)
    (h : selectAllocatorLoop none l = some d) : ∀ p ∈ l, p.device = d := by
  cases l with
  | nil => simp [selectAllocatorLoop] at h
  | cons p rest =>
      rw [selectAllocatorLoop] at h
      obtain ⟨had, hall⟩ := selectAllocatorLoop_some rest p.device d h
      intro q hq
      rcases List.mem_cons.mp hq with rfl | hq
      · exact had
      · exact hall q hq

/-- Two referenced steps on distinct devices force
`selectDeviceMemoryAllocator` to select no allocator. -/
theorem selectDeviceMemoryAllocator_multi (desc : MemoryDescriptor)
    (p q : PreparedModel) (hp : p ∈ desc.preparedModels)
    (hq : q ∈ desc.preparedModels) (hpq : p.device ≠ q.device) :
    selectDeviceMemoryAllocator desc = none := by
  unfold selectDeviceMemoryAllocator
  cases h : selectAllocatorLoop none desc.preparedModels with
  | none => rfl
  | some d =>
      have hall := selectAllocatorLoop_none _ d h
      exact absurd (by rw [hall p hp, hall q hq]) hpq

/-- With no selected allocator, `allocate` never calls a device
allocator. -/
theorem allocate_noAllocator_deviceCalls (b : MemoryBuilder) (env : AllocEnv)
    (h : b.allocator = none) : (b.allocate env).deviceCalls = 0 := by
  unfold MemoryBuilder.allocate
  rw [h]
  split
  · rfl
  · split
    · rfl
    · split
      · next heq => simp at heq
      · dsimp only
        split <;> rfl

/-- On a finished builder with a nonzero computed size, a failed or absent
device allocation triggers exactly one ashmem fallback attempt. -/
theorem allocate_fallback_once (b : MemoryBuilder) (env : AllocEnv) (operand : Operand)
    (hfin : b.finished = true) (hop : b.operand = some operand)
    (hsz : getSizeOfData operand.type b.desc.dimensions ≠ 0)
    (hdev : b.allocator = none ∨
        ∃ d, b.allocator = some d ∧ env.deviceAllocate d ≠ .NO_ERROR) :
    (b.allocate env).fallbackCalls = 1 := by
  unfold MemoryBuilder.allocate
  rw [hfin, hop]
  rcases hdev with h | ⟨d, hd, hfail⟩
  · simp [h, hsz]
  · simp [hd, hsz, hfail]

/-- C3 (amended): a live builder whose registered roles reference steps on
two or more distinct devices finishes with NO_ERROR and no device
allocator selected; every subsequent `allocate` never invokes a device
allocator, and whenever the computed byte size is nonzero it attempts the
host shared-memory fallback (once).  (When the size is zero, `allocate`
returns OP_FAILED before reaching the fallback — see the
counterexample.) -/
theorem C3_multi_device (b : MemoryBuilder) (p q : PreparedModel)
    (hfin : b.finished = false) (hroles : b.roles ≠ [])
    (hp : p ∈ b.desc.preparedModels) (hq : q ∈ b.desc.preparedModels)
    (hpq : p.device ≠ q.device) :
    (b.finish).1 = .NO_ERROR ∧
    (b.finish).2.allocator = none ∧
    (∀ env : AllocEnv, ((b.finish).2.allocate env).deviceCalls = 0) ∧
    (∀ env : AllocEnv, ∀ operand, b.operand = some operand →
        getSizeOfData operand.type b.desc.dimensions ≠ 0 →
        ((b.finish).2.allocate env).fallbackCalls = 1) := by
  have hsel := selectDeviceMemoryAllocator_multi b.desc p q hp hq hpq
  have hfin2 : b.finish = (.NO_ERROR, { b with allocator := none, finished := true }) := by
    unfold MemoryBuilder.finish
    simp [hfin, hroles, hsel]
  refine ⟨by rw [hfin2], by rw [hfin2], ?_, ?_⟩
  · intro env
    rw [hfin2]
    exact allocate_noAllocator_deviceCalls _ env rfl
  · intro env operand hop hsz
    rw [hfin2]
    exact allocate_fallback_once _ env operand rfl hop hsz (Or.inl rfl)

/-- C3 (witness): the concrete two-device builder with known dimensions:
`finish` succeeds with no allocator, and `allocate` makes no device call
and exactly one fallback attempt. -/
theorem C3_multi_device_w :
    (bDual.finish).1 = .NO_ERROR ∧ (bDual.finish).2.allocator = none ∧
    ((bDual.finish).2.allocate envProbe).deviceCalls = 0 ∧
    ((bDual.finish).2.allocate envProbe).fallbackCalls = 1 := by
  have h := C3_multi_device bDual pmA pmB (by decide) (by decide) (by decide)
    (by decide) (by decide)
  exact ⟨h.1, h.2.1, h.2.2.1 envProbe, h.2.2.2 envProbe opFix (by decide) (by decide)⟩

/-- C3 (counterexample): the claim "every subsequent `allocate` call takes
the host shared-memory fallback path" is false: finishing the two-device
builder whose accumulated dimension is still unknown succeeds with no
allocator, yet `allocate` returns OP_FAILED without ever attempting the
fallback. -/
theorem C3_multi_device_cex :
    pmA ∈ bMulti.desc.preparedModels ∧ pmB ∈ bMulti.desc.preparedModels ∧
    pmA.device ≠ pmB.device ∧
    (bMulti0.finish).1 = .NO_ERROR ∧ bMulti.allocator = none ∧
    (bMulti.allocate envProbe).code = .OP_FAILED ∧
    (bMulti.allocate envProbe).deviceCalls = 0 ∧
    (bMulti.allocate envProbe).fallbackCalls = 0 := by decide

/-- C4: `allocate` returns BAD_STATE and no object when `finish` has not
been called; returns OP_FAILED and no object when the byte size computed
from the operand type and the accumulated dimensions is zero; and on a
failed or absent device allocation attempts the ashmem fallback exactly
once. -/
theorem C4_allocate (b : MemoryBuilder) (env : AllocEnv) :
    (b.finished = false →
        b.allocate env =
          { code := .BAD_STATE, memory := none, deviceCalls := 0, fallbackCalls := 0 }) ∧
    (∀ operand, b.finished = true → b.operand = some operand →
        getSizeOfData operand.type b.desc.dimensions = 0 →
        b.allocate env =
          { code := .OP_FAILED, memory := none, deviceCalls := 0, fallbackCalls := 0 }) ∧
    (∀ operand, b.finished = true → b.operand = some operand →
        getSizeOfData operand.type b.desc.dimensions ≠ 0 →
        (b.allocator = none ∨
            ∃ d, b.allocator = some d ∧ env.deviceAllocate d ≠ .NO_ERROR) →
        (b.allocate env).fallbackCalls = 1) := by
  refine ⟨?_, ?_, ?_⟩
  · intro h
    unfold MemoryBuilder.allocate
    simp [h]
  · intro operand hfin hop hsz
    unfold MemoryBuilder.allocate
    simp [hfin, hop, hsz]
  · intro operand hfin hop hsz hdev
    exact allocate_fallback_once b env operand hfin hop hsz hdev

/-- C4 (witness): concrete instances of all three parts — an unfinished
builder yields BAD_STATE, the finished unknown-dimension builder yields
OP_FAILED, and the finished known-dimension builder with no device
allocator makes exactly one fallback attempt. -/
theorem C4_allocate_w :
    bFresh.allocate envProbe =
      { code := .BAD_STATE, memory := none, deviceCalls := 0, fallbackCalls := 0 } ∧
    bMulti.allocate envProbe =
      { code := .OP_FAILED, memory := none, deviceCalls := 0, fallbackCalls := 0 } ∧
    ((bDual.finish).2.allocate envProbe).fallbackCalls = 1 := by
  refine ⟨(C4_allocate bFresh envProbe).1 (by decide),
          (C4_allocate bMulti envProbe).2.1 opUnknown (by decide) (by decide) (by decide),
          (C4_allocate (bDual.finish).2 envProbe).2.2 opFix (by decide) (by decide)
            (by decide) (Or.inl (by decide))⟩

/-- A scalar operand whose type conflicts with `opFix`'s tensor type. -/
def opConflict : Operand :=
  { type := scalarTy, scale := 1, zeroPoint := 0, extraParams := 0, dimensions := [] }

/-- Metadata carrying the conflicting operand with zero logical size. -/
def mBadOp : Metadata := { logicalSize := 0, dimensions := [], operand := some opConflict }

/-- C9 (counterexample): the claim "a zero logical size or empty dims in
the incoming metadata is treated as no constraint, always accepting it" is
false on the Device-role validator: metadata with zero logical size whose
dimensions are incompatible with the recorded dimensions is rejected. -/
theorem C9_updateMetadata_cex :
    ((Validator.device [] opFix [2] [2] false).updateMetadata
        { logicalSize := 0, dimensions := [1], operand := none }).1 = false ∧
    ({ logicalSize := 0, dimensions := [1], operand := none } : Metadata).logicalSize = 0 := by
  decide

/-- C9 (amended): the Device-role validator's `updateMetadata` rejects
metadata whose operand-type fields conflict with its fixed operand, fails
whenever the incoming dims are incompatible with the recorded dims under
the combiner, and accepts all-empty metadata (zero logical size, empty
dims, no operand), resolving the dims to the recorded ones; the Sized
validator checks only that the incoming logical size is zero or equal to
its fixed size, and the Non-blob validator accepts all metadata. -/
theorem C9_updateMetadata (size : Nat) (ini : Bool) (m : Metadata)
    (roles : List CompilationRole) (op : Operand) (initDims updDims : List Nat) :
    (((Validator.sized size ini).updateMetadata m).1 = true ↔
        (m.logicalSize = 0 ∨ m.logicalSize = size)) ∧
    ((Validator.nonBlob ini).updateMetadata m).1 = true ∧
    (∀ o, m.operand = some o →
        ¬ (o.type = op.type ∧ o.scale = op.scale ∧ o.zeroPoint = op.zeroPoint ∧
            o.extraParams = op.extraParams) →
        ((Validator.device roles op initDims updDims ini).updateMetadata m).1 = false) ∧
    (combineDimensions m.dimensions initDims = none →
        ((Validator.device roles op initDims updDims ini).updateMetadata m).1 = false) ∧
    ((Validator.device roles op initDims updDims ini).updateMetadata
        { logicalSize := 0, dimensions := [], operand := none } =
      (true, Validator.device roles op initDims initDims ini)) := by
  refine ⟨?_, rfl, ?_, ?_, ?_⟩
  · simp [Validator.updateMetadata]
  · intro o ho hne
    simp [Validator.updateMetadata, operandCompatible, ho, hne]
  · intro hc
    simp only [Validator.updateMetadata, hc]
    split
    · rfl
    · split
      · rfl
      · rfl
  · simp [Validator.updateMetadata, operandCompatible, combineDimensions]

/-- C9 (witness): the Sized validator accepts metadata carrying exactly its
size, and the Device-role validator rejects the conflicting-operand
metadata even though its logical size is zero. -/
theorem C9_updateMetadata_w :
    ((Validator.sized 4 true).updateMetadata { logicalSize := 4 }).1 = true ∧
    ((Validator.device [] opFix [2] [2] false).updateMetadata mBadOp).1 = false := by
  refine ⟨(C9_updateMetadata 4 true { logicalSize := 4 } [] opFix [2] [2]).1.mpr
            (Or.inr rfl), ?_⟩
  exact (C9_updateMetadata 4 false mBadOp [] opFix [2] [2]).2.2.1 opConflict rfl (by decide)

end NNMemory
